import Mathlib

/-!
Verification of the yeet-yoink transient file-relay service.

Shallow embedding of the core components, translated from the Rust
sources:

- `src/bins/server/src/backend_registry.rs` — backend registry and
  dispatcher (`BackendRegistry::handle_events`, `get_sender`);
- `src/src/backbone/file_record.rs` — per-file lifetime controller
  (`FileRecord::lifetime_handler`, `TEMPORAL_LEASE`);
- `src/src/handlers/yeet.rs` — upload handler (`do_yeet`);
- `src/src/handlers/yoink.rs` — download handler (`do_yoink`,
  `From<GetReaderError> for Response`).

Machine behaviour that the sources delegate to libraries (hashers,
channels, the async runtime) is modelled abstractly: hashers are
function parameters, channel sends are Booleans recording whether the
receiving side is still open, and async control flow becomes explicit
event traces.
-/

namespace YeetYoink

/-- File identifiers (the 128-bit ShortGuid), abstracted to a natural number. -/
abbrev FileId := Nat

/-- Bytes, abstracted to naturals. -/
abbrev Byte := Nat

/-- Hash digests, abstracted to byte lists. -/
abbrev Digest := List Byte

/-- A file summary as produced at write completion:
size in bytes plus the two digests (`FileSummary` in the data model). -/
structure FileSummary where
  fileSizeBytes : Nat
  md5 : Digest
  sha256 : Digest
deriving DecidableEq, Repr

/-! ## Backend registry and dispatcher (`backend_registry.rs`) -/

/-- A registered backend: its `tag()` and its `distribute_file` outcome,
which may depend on the file id and summary it is invoked with.
`Except String Unit` stands for `Result<(), BackendError>`; the `String`
is the rendered error. Translated from the `Backend` trait object as the
dispatcher consumes it. -/
structure Backend where
  tag : String
  distribute_file : FileId → FileSummary → Except String Unit

/-- Observable events of the dispatcher's `DistributeFile` loop:
an invocation of `distribute_file` on the backend with the given tag,
or a warning logged with that tag and the error text. -/
inductive DistEvent where
  | invoke (tag : String)
  | warn (tag : String) (error : String)
deriving DecidableEq, Repr

/-- The `DistributeFile(id, summary)` arm of
`BackendRegistry::handle_events` (backend_registry.rs lines 110-127):
`for backend in backends.iter()`, invoke
`backend.distribute_file(id, summary, file_accessor)`; on `Ok` do
nothing, on `Err(e)` log a warning with `backend.tag()` and continue. -/
def distribute_file_events : List Backend → FileId → FileSummary → List DistEvent
  | [], _, _ => []
  | b :: rest, id, summary =>
    match b.distribute_file id summary with
    | .ok _ => .invoke b.tag :: distribute_file_events rest id summary
    | .error e => .invoke b.tag :: .warn b.tag e :: distribute_file_events rest id summary

/-- The tags of the invocations in a dispatcher event trace, in order. -/
def invokeTags (events : List DistEvent) : List String :=
  events.filterMap fun e =>
    match e with
    | .invoke t => some t
    | _ => none

/-- The `(tag, error)` pairs of the warnings in a dispatcher event trace, in order. -/
def warnPairs (events : List DistEvent) : List (String × String) :=
  events.filterMap fun e =>
    match e with
    | .warn t err => some (t, err)
    | _ => none

/-- The backend command type, as consumed by the dispatcher.
`ReceiveFile`'s reply channel is left abstract (the code never uses it). -/
inductive BackendCommand where
  | distributeFile (id : FileId) (summary : FileSummary)
  | receiveFile (id : FileId)

/-- Outcome of the dispatcher's per-command task: a trace of events, or
a panic (the Rust `todo!` macro) with its message. -/
inductive DispatchOutcome where
  | events (trace : List DistEvent)
  | panicTodo (msg : String)
deriving DecidableEq, Repr

/-- The per-command body spawned by `BackendRegistry::handle_events`
(backend_registry.rs lines 108-136): `DistributeFile` runs the
distribution loop; `ReceiveFile` hits
`todo!("Implement download of file")` (line 130), i.e. panics. -/
def handle_event (backends : List Backend) : BackendCommand → DispatchOutcome
  | .distributeFile id summary => .events (distribute_file_events backends id summary)
  | .receiveFile _ => .panicTodo "Implement download of file"

/-- The abstract sender half of the backend command channel. -/
structure Sender where
  chan : Nat
deriving DecidableEq, Repr

/-- The wrapper produced by `BackendCommandSender::from`. -/
structure BackendCommandSender where
  inner : Sender
deriving DecidableEq, Repr

/-- The `BackendRegistry` state that `get_sender` acts on: the
`Cell<Option<Sender<BackendCommand>>>` field (the join handle plays no
role in the claims). -/
structure BackendRegistry where
  sender : Option Sender
deriving DecidableEq, Repr

/-- `BackendRegistry::new` (backend_registry.rs lines 41-57): the
registry is constructed with `sender: Cell::new(Some(sender))`. -/
def BackendRegistry.mk_new (s : Sender) : BackendRegistry :=
  { sender := some s }

/-- `BackendRegistry::get_sender` (backend_registry.rs lines 65-67):
`self.sender.take().map(BackendCommandSender::from)`. `Cell::take`
returns the current contents and leaves `None` behind, so we return the
result together with the updated registry state. -/
def get_sender (r : BackendRegistry) : Option BackendCommandSender × BackendRegistry :=
  (r.sender.map fun s => { inner := s }, { sender := none })

/-- The result of the `n`-th call (0-based) of `get_sender` on a
registry, threading the registry state through the preceding calls. -/
def get_sender_nth (r : BackendRegistry) : Nat → Option BackendCommandSender
  | 0 => (get_sender r).1
  | n + 1 => get_sender_nth (get_sender r).2 n

end YeetYoink

namespace YeetYoink

/-! ## File record lifetime controller (`file_record.rs`) -/

/-- `TEMPORAL_LEASE` (file_record.rs line 13):
`Duration::from_secs(5 * 60)`, expressed in seconds. -/
def TEMPORAL_LEASE_SECS : Nat := 5 * 60

/-- The writer's completion message (`WriteResult`): `Success` carries
the write summary, `Failed` carries nothing. -/
inductive WriteResult where
  | success (summary : FileSummary)
  | failed
deriving DecidableEq, Repr

/-- Outcome of awaiting the oneshot `writer_command` receiver:
a delivered message, or the channel error raised when the sender was
dropped without sending. -/
inductive RecvOutcome where
  | ok (msg : WriteResult)
  | channelError
deriving DecidableEq, Repr

/-- Observable events of `FileRecord::lifetime_handler`, in program
order: closing the file slot, a successfully delivered
`ReadyForDistribution(id)` or `RemoveWriter(id)` on the backbone
command channel, and the temporal-lease sleep (duration in seconds). -/
inductive LifeEvent where
  | closeFile
  | sendReady (id : FileId)
  | sleepLease (secs : Nat)
  | sendRemove (id : FileId)
deriving DecidableEq, Repr

/-- `FileRecord::remove_writer` (file_record.rs lines 99-106): send
`RemoveWriter(id)`; a send error is only logged, so the event appears
exactly when the channel still accepts it. -/
def remove_writer (id : FileId) (removeSendOk : Bool) : List LifeEvent :=
  match removeSendOk with
  | true => [.sendRemove id]
  | false => []

/-- `FileRecord::lifetime_handler` (file_record.rs lines 47-87) as the
trace of events it performs. `readySendOk` and `removeSendOk` record
whether the backbone command channel accepts the respective send (an
mpsc channel closes permanently, so a run is described by at most one
open-to-closed transition, which these two flags cover).

Paths, exactly as in the source:
- `Ok(Success(_))`: log; send `ReadyForDistribution(id)` — if that send
  fails, warn and return; otherwise sleep `TEMPORAL_LEASE`, then
  `remove_writer(id)`.
- `Ok(Failed)` and `Err(_)`: warn; `close_file`; `remove_writer(id)`;
  return. -/
def lifetime_handler (id : FileId) (recv : RecvOutcome)
    (readySendOk removeSendOk : Bool) : List LifeEvent :=
  match recv with
  | .ok (.success _) =>
    match readySendOk with
    | true => .sendReady id :: .sleepLease TEMPORAL_LEASE_SECS :: remove_writer id removeSendOk
    | false => []
  | .ok .failed => .closeFile :: remove_writer id removeSendOk
  | .channelError => .closeFile :: remove_writer id removeSendOk

/-- Number of delivered `ReadyForDistribution` messages in a lifetime trace. -/
def readyCount (trace : List LifeEvent) : Nat :=
  trace.countP fun e =>
    match e with
    | .sendReady _ => true
    | _ => false

/-- Number of cleanup-without-ready emissions in a lifetime trace: a
`RemoveWriter` that has no `ReadyForDistribution` anywhere before it
and comes after the file slot was closed. The two Booleans track
whether a `sendReady` (first) resp. `closeFile` (second) has been seen. -/
def cleanupCount (seenReady seenClose : Bool) : List LifeEvent → Nat
  | [] => 0
  | e :: rest =>
    match e with
    | .sendReady _ => cleanupCount true seenClose rest
    | .closeFile => cleanupCount seenReady true rest
    | .sendRemove _ =>
      (match seenReady, seenClose with
       | false, true => 1
       | _, _ => 0) + cleanupCount seenReady seenClose rest
    | .sleepLease _ => cleanupCount seenReady seenClose rest

/-- Checks that every `RemoveWriter` in the trace is preceded by some
`ReadyForDistribution`; the Boolean accumulator records whether a
`sendReady` has been seen so far. -/
def removesAfterReady (seenReady : Bool) : List LifeEvent → Bool
  | [] => true
  | e :: rest =>
    match e with
    | .sendReady _ => removesAfterReady true rest
    | .sendRemove _ => seenReady && removesAfterReady seenReady rest
    | _ => removesAfterReady seenReady rest

/-- Modelled from the spec: the Backbone Registry command loop
(`backbone.rs` is not among the sources; spec section 4.D). It
processes `ReadyForDistribution(id)` by forwarding `DistributeFile(id,
summary)` to the backend registry, and `RemoveWriter(id)` by deleting
the record from the map. Here the map is the list of live ids, and we
fold the observable lifetime-trace sends over it, collecting the ids
forwarded for distribution. -/
def backboneProcess (records : List FileId) : List LifeEvent → List FileId × List FileId
  | [] => (records, [])
  | e :: rest =>
    match e with
    | .sendReady id =>
      let (m, ds) := backboneProcess records rest
      (m, id :: ds)
    | .sendRemove id => backboneProcess (records.erase id) rest
    | _ => backboneProcess records rest

/-- The ids whose `ReadyForDistribution` reached the backbone and were
forwarded to the backend registry as `DistributeFile` commands. -/
def dispatchedIds (trace : List LifeEvent) : List FileId :=
  (backboneProcess [] trace).2

/-! ## Upload handler (`yeet.rs`) -/

/-- Result of one call of `writer.write(&chunk)` inside `do_yeet`'s
inner loop: `Ok(n)` with the accepted byte count, or an I/O error. -/
inductive WriteCall where
  | ok (n : Nat)
  | err
deriving DecidableEq, Repr

/-- Outcome of `do_yeet`'s inner write loop for one chunk of stream
data (yeet.rs lines 104-120): the final `(bytes_written, next call
index)` on normal exit, or the early 500 return on a write error. -/
inductive ChunkLoopResult where
  | done (bytesWritten : Nat) (nextCall : Nat)
  | ioError
deriving DecidableEq, Repr

/-- The inner `while data.has_remaining()` loop of `do_yeet` (yeet.rs
lines 104-120), fuel-indexed. `writer k r` is the result of the `k`-th
write call when `r` bytes of the chunk remain (the chunk slice passed
to `write`). The source, per iteration: if no bytes remain, exit the
loop; otherwise call `writer.write`; on `Ok(0)` loop again without
advancing; on `Ok(n)` do `bytes_written += n; data.advance(n)`; on
`Err` return the 500 response. `none` means the fuel ran out. -/
def write_loop (writer : Nat → Nat → WriteCall) :
    Nat → Nat → Nat → Nat → Option ChunkLoopResult
  | 0, _, _, _ => none
  | _ + 1, k, 0, written => some (.done written k)
  | fuel + 1, k, r + 1, written =>
    match writer k (r + 1) with
    | .ok 0 => write_loop writer fuel (k + 1) (r + 1) written
    | .ok n => write_loop writer fuel (k + 1) (r + 1 - n) (written + n)
    | .err => some .ioError

/-- Errors of the modelled `finalize`. -/
inductive FinalizeError where
  | checksumMismatch
deriving DecidableEq, Repr

/-- Modelled from the spec: `FileWriter::finalize` (the writer module is
not among the sources; spec section 4.B). Both hashers have consumed
exactly the accepted bytes; `md5fn`/`sha256fn` stand for the digest
functions. If a client-supplied expected MD5 was provided and differs
from the actual digest, `finalize` fails with `ChecksumMismatch` and
emits `WriteResult::Failed` on the completion channel, without
publishing success; otherwise it emits `WriteResult::Success(summary)`
and returns the summary. -/
def finalize (md5fn sha256fn : List Byte → Digest)
    (expectedMd5 : Option Digest) (accepted : List Byte) :
    Except FinalizeError FileSummary × WriteResult :=
  let summary : FileSummary :=
    { fileSizeBytes := accepted.length
      md5 := md5fn accepted
      sha256 := sha256fn accepted }
  match expectedMd5 with
  | some expected =>
    if expected = md5fn accepted then (.ok summary, .success summary)
    else (.error .checksumMismatch, .failed)
  | none => (.ok summary, .success summary)

/-- The upload handler's HTTP response, reduced to the fields the
claims speak about: the status code and, on success, the reported size
and hashes. -/
structure YeetResponse where
  status : Nat
  fileSizeBytes : Option Nat
  md5 : Option Digest
  sha256 : Option Digest
deriving DecidableEq, Repr

/-- The tail of `do_yeet` (yeet.rs lines 137-171) after the body has
been streamed and synced successfully: call
`writer.finalize(CompletionMode::NoSync)`; on `Err` return status 500
(`StatusCode::INTERNAL_SERVER_ERROR`, yeet.rs lines 139-145); on `Ok`
build the JSON body from the write result and return status 201
(`StatusCode::CREATED`, yeet.rs line 165). The second component is the
`WriteResult` the writer published to the lifetime task. -/
def do_yeet (md5fn sha256fn : List Byte → Digest)
    (expectedMd5 : Option Digest) (body : List Byte) :
    YeetResponse × WriteResult :=
  match finalize md5fn sha256fn expectedMd5 body with
  | (.ok summary, published) =>
    ({ status := 201
       fileSizeBytes := some summary.fileSizeBytes
       md5 := some summary.md5
       sha256 := some summary.sha256 }, published)
  | (.error _, published) =>
    ({ status := 500, fileSizeBytes := none, md5 := none, sha256 := none }, published)

/-- The lifetime-task receive outcome corresponding to a published
write result: the oneshot channel delivers the message. -/
def recvOf (published : WriteResult) : RecvOutcome :=
  .ok published

/-! ## Download handler (`yoink.rs`) -/

/-- The reader lookup errors (`GetReaderError`), with the causing error
of `FileError` rendered to a string. -/
inductive GetReaderError where
  | unknownFile (id : String)
  | fileExpired (id : String)
  | fileError (id : String) (e : String)
deriving DecidableEq, Repr

/-- An RFC 7807 problem+json response as built by `problemdetails`:
status, title, detail, the `instance` member, and the extension
members added with `with_value`. -/
structure ProblemResponse where
  status : Nat
  title : String
  detail : String
  problemInstance : String
  values : List (String × String)
deriving DecidableEq, Repr

/-- `From<GetReaderError> for Response` (yoink.rs lines 53-79):
`UnknownFile` → 404, `FileExpired` → 410, `FileError` → 500, each with
title, detail, `with_instance("/yoink/" + id)` and
`with_value("id", id)`; `FileError` additionally carries
`with_value("error", e)`. -/
def responseOfGetReaderError : GetReaderError → ProblemResponse
  | .unknownFile id =>
    { status := 404
      title := "File not found"
      detail := "The file with ID " ++ id ++ " could not be found"
      problemInstance := "/yoink/" ++ id
      values := [("id", id)] }
  | .fileExpired id =>
    { status := 410
      title := "File not found"
      detail := "The file with ID " ++ id ++ " has expired"
      problemInstance := "/yoink/" ++ id
      values := [("id", id)] }
  | .fileError id e =>
    { status := 500
      title := "File not found"
      detail := "Unable to process file: " ++ e
      problemInstance := "/yoink/" ++ id
      values := [("id", id), ("error", e)] }

/-- A reader over the shared temporary file as `do_yoink` receives it
from `backbone.get_file` (file_reader.rs): the preserved content type
and the readable bytes. -/
structure FileReader where
  contentType : Option String
  contents : List Byte
deriving DecidableEq, Repr

/-- Outcome of the download handler: an error response, or the panic
raised by the Rust `todo!` macro. -/
inductive YoinkOutcome where
  | response (r : ProblemResponse)
  | panicTodo
deriving DecidableEq, Repr

/-- `do_yoink` (yoink.rs lines 39-51): on a lookup error, return the
mapped problem response (`return Ok(e.into())`); when the lookup
succeeds, the handler logs and then hits the bare `todo!()` on line 50
— it panics and never produces a 200 stream. -/
def do_yoink (lookup : Except GetReaderError FileReader) : YoinkOutcome :=
  match lookup with
  | .error e => .response (responseOfGetReaderError e)
  | .ok _ => .panicTodo

/-! ## Theorems -/

/-- C1: for every `DistributeFile` command, the dispatcher invokes
`distribute_file` exactly once per registered backend for that id and
summary, in registration order (the invocation-tag list equals the
registration list), and logs a warning tagged with `tag()` for exactly
the backends that return an error, continuing past each failure — so
every registered backend is attempted regardless of failures of
earlier backends. -/
theorem distribute_invokes_each_backend_once
    (backends : List Backend) (id : FileId) (summary : FileSummary) :
    handle_event backends (.distributeFile id summary) =
      .events (distribute_file_events backends id summary) ∧
    invokeTags (distribute_file_events backends id summary) = backends.map Backend.tag ∧
    warnPairs (distribute_file_events backends id summary) =
      backends.filterMap (fun b =>
        match b.distribute_file id summary with
        | .ok _ => none
        | .error e => some (b.tag, e)) := by
  refine ⟨rfl, ?_, ?_⟩
  · induction backends with
    | nil => rfl
    | cons b rest ih =>
      cases h : b.distribute_file id summary <;>
        simp [distribute_file_events, invokeTags, h, List.filterMap_cons] at ih ⊢ <;>
        exact ih
  · induction backends with
    | nil => rfl
    | cons b rest ih =>
      cases h : b.distribute_file id summary <;>
        simp [distribute_file_events, warnPairs, h, List.filterMap_cons] at ih ⊢ <;>
        exact ih

/-- C7 (code bug): on a `ReceiveFile(id, reply)` command the dispatcher
does not try the backends at all — the `ReceiveFile` arm of
`handle_events` is `todo!("Implement download of file")`
(backend_registry.rs line 130), so it panics instead of resolving the
payload or replying `NotFound`. Evaluated at a registry with one
always-succeeding backend and id 0. -/
theorem receive_file_panics_todo :
    handle_event [{ tag := "memcached", distribute_file := fun _ _ => .ok () }]
        (.receiveFile 0) = .panicTodo "Implement download of file" := rfl

/-- C9 helper: once the cell holds `None`, every later call yields `None`. -/
theorem get_sender_nth_none (n : Nat) :
    get_sender_nth { sender := none } n = none := by
  induction n with
  | zero => rfl
  | succ n ih => exact ih

/-- C9: the backend command sender is issued at most once — on a
freshly constructed registry the first `get_sender` call returns
`Some`, and every subsequent call returns `None` (`Cell::take` leaves
`None` behind). -/
theorem get_sender_at_most_once (s : Sender) (n : Nat) :
    get_sender_nth (BackendRegistry.mk_new s) 0 = some { inner := s } ∧
    get_sender_nth (BackendRegistry.mk_new s) (n + 1) = none := by
  exact ⟨rfl, get_sender_nth_none n⟩

/-- C6: every failed lookup on the yoink path is turned into the
problem+json response whose status is determined by the error kind —
`UnknownFile` → 404, `FileExpired` → 410, `FileError` → 500 — and whose
body carries an `id` member and an `instance` member of the form
`/yoink/` followed by the id. -/
theorem yoink_error_mapping (e : GetReaderError) :
    do_yoink (.error e) = .response (responseOfGetReaderError e) ∧
    (responseOfGetReaderError e).status =
      (match e with
       | .unknownFile _ => 404
       | .fileExpired _ => 410
       | .fileError _ _ => 500) ∧
    (responseOfGetReaderError e).values.lookup "id" =
      some (match e with
            | .unknownFile id => id
            | .fileExpired id => id
            | .fileError id _ => id) ∧
    (responseOfGetReaderError e).problemInstance =
      "/yoink/" ++ (match e with
                    | .unknownFile id => id
                    | .fileExpired id => id
                    | .fileError id _ => id) := by
  cases e <;> exact ⟨rfl, rfl, rfl, rfl⟩

/-- C4 (code bug): when the lookup on the yoink path succeeds, the
handler never builds the 200 streaming response: `do_yoink` hits the
bare `todo!()` (yoink.rs line 50) right after obtaining the reader and
panics. Evaluated at a reader holding the bytes of "hello" with
content type `text/plain`, i.e. exactly the state reached after a
successful upload within the lease. -/
theorem yoink_success_path_panics :
    do_yoink (.ok { contentType := some "text/plain"
                    contents := [104, 101, 108, 108, 111] }) = .panicTodo := rfl

/-- C2: with the backbone command channel open, the lifetime task emits
exactly one `ReadyForDistribution` and no cleanup-without-ready when
the write succeeds, and no `ReadyForDistribution` and exactly one
cleanup-without-ready (a `RemoveWriter` that follows the `close_file`
and has no preceding `ReadyForDistribution`) when the write fails or
the completion channel is dropped — never both paths and never more
than one of either for the same id. -/
theorem lifetime_emits_exactly_one (id : FileId) (s : FileSummary) :
    (readyCount (lifetime_handler id (.ok (.success s)) true true) = 1 ∧
      cleanupCount false false (lifetime_handler id (.ok (.success s)) true true) = 0) ∧
    (readyCount (lifetime_handler id (.ok .failed) true true) = 0 ∧
      cleanupCount false false (lifetime_handler id (.ok .failed) true true) = 1) ∧
    (readyCount (lifetime_handler id .channelError true true) = 0 ∧
      cleanupCount false false (lifetime_handler id .channelError true true) = 1) := by
  exact ⟨⟨rfl, rfl⟩, ⟨rfl, rfl⟩, ⟨rfl, rfl⟩⟩

/-- C3 (counterexample): on write failure the lifetime task sends
`RemoveWriter(0)` to the backbone command channel with no
`ReadyForDistribution(0)` anywhere before it — the claimed ordering
fails on the failure path. -/
theorem remove_without_ready_on_failure :
    lifetime_handler 0 (.ok .failed) true true = [.closeFile, .sendRemove 0] ∧
    removesAfterReady false (lifetime_handler 0 (.ok .failed) true true) = false := by
  exact ⟨rfl, rfl⟩

/-- C3 (amended): on the successful-write path every `RemoveWriter`
sent to the backbone command channel is preceded by a
`ReadyForDistribution` for the same id; on write failure or
completion-channel drop the task instead emits exactly one
cleanup-without-ready, a `RemoveWriter` not preceded by any
`ReadyForDistribution`. -/
theorem remove_preceded_by_ready_on_success
    (id : FileId) (s : FileSummary) (removeOk : Bool) :
    removesAfterReady false (lifetime_handler id (.ok (.success s)) true removeOk) = true ∧
    removesAfterReady false (lifetime_handler id (.ok .failed) true true) = false ∧
    removesAfterReady false (lifetime_handler id .channelError true true) = false ∧
    cleanupCount false false (lifetime_handler id (.ok .failed) true true) = 1 ∧
    cleanupCount false false (lifetime_handler id .channelError true true) = 1 := by
  cases removeOk <;> exact ⟨rfl, rfl, rfl, rfl, rfl⟩

/-- C8: after a successful write completion (channel open), the
lifetime task's trace is exactly `ReadyForDistribution(id)`, then the
temporal-lease sleep, then `RemoveWriter(id)`; the lease is the
default `5 * 60` seconds (5 minutes); `RemoveWriter` is published only
after the sleep; and processing everything emitted before the lease
has elapsed leaves the record in the backbone map, so reader creation
can still succeed during the lease window. -/
theorem lease_sleep_before_remove (id : FileId) (s : FileSummary) :
    lifetime_handler id (.ok (.success s)) true true =
      [.sendReady id, .sleepLease TEMPORAL_LEASE_SECS, .sendRemove id] ∧
    TEMPORAL_LEASE_SECS = 5 * 60 ∧
    (lifetime_handler id (.ok (.success s)) true true).take 2 =
      [.sendReady id, .sleepLease TEMPORAL_LEASE_SECS] ∧
    (backboneProcess [id] [.sendReady id, .sleepLease TEMPORAL_LEASE_SECS]).1 = [id] := by
  exact ⟨rfl, rfl, rfl, rfl⟩

/-- C5 (counterexample): with the digest function abstracted to the
identity, a client-supplied expected MD5 `[1]` against a body `[2]`
(mismatch) makes the upload respond 500 — `do_yeet` maps every
`finalize` error to `StatusCode::INTERNAL_SERVER_ERROR` (yeet.rs lines
139-145) — not 400 as claimed. -/
theorem checksum_mismatch_responds_500_not_400 :
    (do_yeet (fun l => l) (fun l => l) (some [1]) [2]).1.status = 500 ∧
    (do_yeet (fun l => l) (fun l => l) (some [1]) [2]).1.status ≠ 400 := by
  exact ⟨rfl, by decide⟩

/-- C5 (amended): if the client-supplied Content-MD5 differs from the
MD5 of the bytes actually written, `finalize` fails with
`ChecksumMismatch` publishing `WriteResult::Failed` rather than
success, the upload responds 500 (not 400: the handler maps all
finalize errors to `INTERNAL_SERVER_ERROR`), and no backend dispatch
occurs for that file — the lifetime task takes the failure path and
the backbone forwards no `DistributeFile`; if the supplied value
equals the actual MD5 the upload responds 201. -/
theorem checksum_mismatch_fails_without_dispatch
    (md5fn sha256fn : List Byte → Digest) (expected : Digest)
    (body : List Byte) (id : FileId) (h : expected ≠ md5fn body) :
    finalize md5fn sha256fn (some expected) body =
      (.error .checksumMismatch, .failed) ∧
    (do_yeet md5fn sha256fn (some expected) body).1.status = 500 ∧
    (do_yeet md5fn sha256fn (some expected) body).2 = .failed ∧
    dispatchedIds (lifetime_handler id
      (recvOf (do_yeet md5fn sha256fn (some expected) body).2) true true) = [] ∧
    (∀ body2 : List Byte, expected = md5fn body2 →
      (do_yeet md5fn sha256fn (some expected) body2).1.status = 201) := by
  have hfin : finalize md5fn sha256fn (some expected) body =
      (.error .checksumMismatch, .failed) := by
    simp [finalize, h]
  refine ⟨hfin, ?_, ?_, ?_, ?_⟩
  · simp [do_yeet, hfin]
  · simp [do_yeet, hfin]
  · have h2 : (do_yeet md5fn sha256fn (some expected) body).2 = .failed := by
      simp [do_yeet, hfin]
    rw [h2]
    rfl
  · intro body2 h2
    simp [do_yeet, finalize, h2]

/-- C5 witness: the amended theorem applied at the identity digest
function, expected MD5 `[1]` and body `[2]`. -/
theorem checksum_mismatch_witness :
    ([1] : Digest) ≠ (fun (l : List Byte) => l) [2] ∧
    (do_yeet (fun l => l) (fun l => l) (some [1]) [2]).2 = .failed ∧
    dispatchedIds (lifetime_handler 0
      (recvOf (do_yeet (fun l => l) (fun l => l) (some [1]) [2]).2) true true) = [] := by
  refine ⟨by decide, ?_, ?_⟩
  · exact (checksum_mismatch_fails_without_dispatch
      (fun l => l) (fun l => l) [1] [2] 0 (by decide)).2.2.1
  · exact (checksum_mismatch_fails_without_dispatch
      (fun l => l) (fun l => l) [1] [2] 0 (by decide)).2.2.2.1

/-- Whether the `j`-th write call on a chunk with `r` remaining bytes
returns a positive count. -/
def posCall (writer : Nat → Nat → WriteCall) (r j : Nat) : Bool :=
  match writer j r with
  | .ok (_ + 1) => true
  | _ => false

/-- Unfolding of the loop's `Ok(0)` arm: a write returning `Ok(0)` on
non-empty remaining data retries without advancing the cursor or
`bytes_written`. -/
theorem write_loop_step_ok0 (writer : Nat → Nat → WriteCall)
    (fuel k r w : Nat) (h : writer k (r + 1) = .ok 0) :
    write_loop writer (fuel + 1) k (r + 1) w = write_loop writer fuel (k + 1) (r + 1) w := by
  simp [write_loop, h]

/-- Unfolding of the loop's `Ok(n)` arm for positive `n`: the cursor
advances by exactly the returned count and `bytes_written` grows by it. -/
theorem write_loop_step_okpos (writer : Nat → Nat → WriteCall)
    (fuel k r w n : Nat) (h : writer k (r + 1) = .ok (n + 1)) :
    write_loop writer (fuel + 1) k (r + 1) w =
      write_loop writer fuel (k + 1) (r + 1 - (n + 1)) (w + (n + 1)) := by
  simp [write_loop, h]

/-- A run of `m` consecutive `Ok(0)` results only advances the call
index: the remaining bytes and `bytes_written` are unchanged. -/
theorem write_loop_spin (writer : Nat → Nat → WriteCall) :
    ∀ m fuel k r w, (∀ j, k ≤ j → j < k + m → writer j (r + 1) = .ok 0) →
      write_loop writer (m + fuel) k (r + 1) w = write_loop writer fuel (k + m) (r + 1) w := by
  intro m
  induction m with
  | zero =>
    intro fuel k r w _
    simp
  | succ m ih =>
    intro fuel k r w h
    have h0 : writer k (r + 1) = .ok 0 := h k (Nat.le_refl k) (by omega)
    have hm : m + 1 + fuel = (m + fuel) + 1 := by omega
    rw [hm, write_loop_step_ok0 writer (m + fuel) k r w h0,
      ih fuel (k + 1) r w (fun j hj1 hj2 => h j (by omega) (by omega))]
    congr 1
    omega

/-- C10: in `do_yeet`'s inner write loop the cursor advances only by
the count `writer.write` returns, `Ok(0)` on non-empty data retries
without advancing (see `write_loop` and its step lemmas), and —
provided every write call returns at most the remaining count, never
errors, and on non-empty input eventually returns a positive count —
the loop terminates for every chunk with `bytes_written` increased by
exactly the chunk's length. -/
theorem write_loop_terminates_exact (writer : Nat → Nat → WriteCall)
    (Hle : ∀ k r n, writer k r = .ok n → n ≤ r)
    (Herr : ∀ k r, writer k r ≠ .err)
    (Hprog : ∀ k r, 0 < r → ∃ j, k ≤ j ∧ ∃ n, writer j r = .ok n ∧ 0 < n) :
    ∀ r k w, ∃ fuel k1, write_loop writer fuel k r w = some (.done (w + r) k1) := by
  intro r
  induction r using Nat.strong_induction_on with
  | _ r ih =>
    intro k w
    cases r with
    | zero => exact ⟨1, k, rfl⟩
    | succ r' =>
      obtain ⟨j, hkj, n, hok, hpos⟩ := Hprog k (r' + 1) (Nat.succ_pos r')
      have hex : ∃ i, k ≤ i ∧ posCall writer (r' + 1) i = true := by
        refine ⟨j, hkj, ?_⟩
        unfold posCall
        rw [hok]
        cases n with
        | zero => omega
        | succ m => rfl
      have hj0 := Nat.find_spec hex
      have hmin : ∀ i, i < Nat.find hex → ¬(k ≤ i ∧ posCall writer (r' + 1) i = true) :=
        fun i hi => Nat.find_min hex hi
      obtain ⟨n0, hok0⟩ : ∃ n0, writer (Nat.find hex) (r' + 1) = .ok (n0 + 1) := by
        have h2 := hj0.2
        unfold posCall at h2
        cases hw : writer (Nat.find hex) (r' + 1) with
        | ok m =>
          cases m with
          | zero => rw [hw] at h2; simp at h2
          | succ m0 => exact ⟨m0, rfl⟩
        | err => rw [hw] at h2; simp at h2
      have hle : n0 + 1 ≤ r' + 1 := Hle (Nat.find hex) (r' + 1) (n0 + 1) hok0
      have hz : ∀ i, k ≤ i → i < Nat.find hex → writer i (r' + 1) = .ok 0 := by
        intro i hki hij
        have hni := hmin i hij
        have hpc : posCall writer (r' + 1) i = false := by
          cases hpc : posCall writer (r' + 1) i
          · rfl
          · exact absurd ⟨hki, hpc⟩ hni
        unfold posCall at hpc
        cases hw : writer i (r' + 1) with
        | ok m =>
          cases m with
          | zero => rfl
          | succ m0 => rw [hw] at hpc; simp at hpc
        | err => exact absurd hw (Herr i (r' + 1))
      have hlt : r' + 1 - (n0 + 1) < r' + 1 := by omega
      obtain ⟨f2, k1, hf2⟩ := ih (r' + 1 - (n0 + 1)) hlt (Nat.find hex + 1) (w + (n0 + 1))
      refine ⟨(Nat.find hex - k) + (f2 + 1), k1, ?_⟩
      rw [write_loop_spin writer (Nat.find hex - k) (f2 + 1) k r' w
        (fun i hki hij => hz i hki (by omega))]
      have hkj0 : k + (Nat.find hex - k) = Nat.find hex := by
        have := hj0.1
        omega
      rw [hkj0, write_loop_step_okpos writer f2 (Nat.find hex) r' w n0 hok0, hf2]
      have heq : w + (n0 + 1) + (r' + 1 - (n0 + 1)) = w + (r' + 1) := by omega
      rw [heq]

/-- C10 witness: the termination theorem applied to the writer that
accepts the whole remaining chunk on every call, at a chunk of length
3 starting from `bytes_written = 0` and call index 0. -/
theorem write_loop_terminates_witness :
    ∃ fuel k1, write_loop (fun _ r => .ok r) fuel 0 3 0 = some (.done (0 + 3) k1) :=
  write_loop_terminates_exact (fun _ r => .ok r)
    (fun _ _ n h => by injection h with h2; omega)
    (fun _ _ h => WriteCall.noConfusion h)
    (fun k r hr => ⟨k, Nat.le_refl k, r, rfl, hr⟩)
    3 0 0

end YeetYoink
